import Mathlib

/-!
Verification of the BroControl plugin API (`src/BroControl/plugin.py`)
against its natural-language specification.

The file shallowly embeds the plugin contract: Python strings are Lean
`String`s (ASCII case mapping, which covers every identifier the contract
manipulates), the global configuration store of the surrounding tool is an
association list from dotted string keys to string values, exceptions are
an explicit `Except` layer, and output produced through the logging
facility is returned as explicit event values.

The configuration store, the output facility and the node directory are
imported by `plugin.py` from the surrounding tool and are not part of this
repository snapshot; they are modelled from the specification (spec §6:
a key-value string store with existence check, get and set-with-persistence;
a tagged output facility; a directory resolving node names to handles).
Everything else is translated directly from `plugin.py`.
-/

namespace BroControl

/-- Python value as far as the contract inspects it: `isinstance(value, str)`
checks at `plugin.py` lines 107 and 913 distinguish strings from everything
else, so one constructor per relevant shape suffices. -/
inductive PyVal where
  | str (s : String)
  | int (n : Int)
  | bool (b : Bool)
  | pynone
  deriving DecidableEq

/-- Python exceptions raised by the code under study. `keyError` embeds the
explicit `raise KeyError` statements; `nameError` embeds evaluation of a
global name that is bound nowhere in the module; `attributeError` embeds a
failing attribute lookup. -/
inductive PyErr where
  | keyError
  | nameError
  | attributeError
  deriving DecidableEq

/-- Test of `isinstance(value, str)`. -/
def isStr : PyVal → Bool
  | PyVal.str _ => true
  | _ => false

/-- String payload of a Python value, with a dummy for non-strings; it is
only ever read behind a successful `isStr` guard, mirroring how the source
only stores a value after the string check has passed. -/
def asStr : PyVal → String
  | PyVal.str s => s
  | _ => ""

/-- ASCII lower-casing of one character, the case mapping Python applies to
the identifiers this contract handles; this is the core `Char.toLower`. -/
def pyLowerChar (c : Char) : Char := Char.toLower c

/-- Embeds Python `s.lower()` on the ASCII identifiers of the contract. -/
def pyLower (s : String) : String := String.mk (s.data.map pyLowerChar)

/-- Embeds the Python membership test `c in s` for a one-character needle. -/
def pyContains (s : String) (c : Char) : Bool := s.data.contains c

/-- Accumulating pass behind `pySplit`: walks the characters, collecting the
current word in reverse, breaking at whitespace and dropping empty words. -/
def pySplitAux : List Char → List Char → List String
  | [], cur => if cur = [] then [] else [String.mk cur.reverse]
  | c :: cs, cur =>
    if c.isWhitespace then
      if cur = [] then pySplitAux cs []
      else String.mk cur.reverse :: pySplitAux cs []
    else pySplitAux cs (c :: cur)

/-- Embeds Python `names.split()` with no separator argument: splits on runs
of whitespace and returns no empty words. -/
def pySplit (s : String) : List String := pySplitAux s.data []

/-- Modelled from the spec: the global configuration store (spec §6) is a
key-value string store keyed by dotted names; an association list keeps the
most recently set binding for a key in front. -/
abbrev Store := List (String × String)

/-- Modelled from the spec: the existence check `config.Config.hasAttr`. -/
def hasAttr (st : Store) (k : String) : Bool := st.any (fun q => q.1 == k)

/-- Modelled from the spec: the get operation behind a successful existence
check (`config.Config.__getattr__`); total, with a dummy value for absent
keys, and only ever invoked by code that has already checked `hasAttr`. -/
def getAttrD (st : Store) (k : String) : String :=
  match st.find? (fun q => q.1 == k) with
  | some q => q.2
  | none => ""

/-- Modelled from the spec: the set-with-persistence operation behind both
`config.Config._setOption` and `config.Config._setState` (spec §6). -/
def setAttr (st : Store) (k v : String) : Store :=
  (k, v) :: st.filter (fun q => !(q.1 == k))

/-- Node handle, consumed opaquely by the contract (spec §3); only identity
matters to the properties studied here. -/
structure Node where
  name : String
  deriving DecidableEq

/-- Event emitted through `util.output`: the message and the optional tag
passed as the `prefix` keyword argument. -/
structure OutputEvent where
  msg : String
  tag : Option String
  deriving DecidableEq

/-- Event emitted through `util.debug`: the debug level, the message and the
tag passed as the `prefix` keyword argument. -/
structure DebugEvent where
  level : Nat
  msg : String
  tag : Option String
  deriving DecidableEq

/-- Declared option 4-tuple `(name, type, default, description)` as returned
by `options()` (`plugin.py` lines 210-241); `default` is a `PyVal` because
`_registerOptions` checks `isinstance(default, str)` at line 913. -/
abbrev OptDecl := String × String × PyVal × String

/-- Plugin instance as the studied methods observe it: the string returned
by `prefix()` (field `pfx`) and the list returned by `options()`. -/
structure Plugin where
  pfx : String
  options : List OptDecl

/-- Embeds `Plugin.error` (`plugin.py` lines 143-146). The body invokes the
bare global name `error`, but the module binds no such name (its imports at
lines 5-8 are `pluginreg`, `config`, `util` and `doc`, and no module-level
`error` is defined), so evaluating the callee raises NameError before the
message is formatted or any output is produced. -/
def pluginError (_p : Plugin) (_msg : String) : Except PyErr Unit :=
  Except.error PyErr.nameError

/-- Embeds `Plugin.message` (`plugin.py` lines 133-136): `util.output(msg,
prefix="plugin:%s" % self.prefix())`. -/
def message (p : Plugin) (msg : String) : OutputEvent :=
  ⟨msg, some ("plugin:" ++ p.pfx)⟩

/-- Embeds `Plugin.debug` (`plugin.py` lines 138-141): `util.debug(1, msg,
prefix="plugin:%s" % self.prefix())`. -/
def debug (p : Plugin) (msg : String) : DebugEvent :=
  ⟨1, msg, some ("plugin:" ++ p.pfx)⟩

/-- Embeds `Plugin.getGlobalOption` (`plugin.py` lines 55-62). The condition
at line 59 is `if config.Config.hasAttr(name): raise KeyError`, so a KNOWN
option raises KeyError; an unknown option reaches line 62, which reads the
attribute `__getattr` (name-mangled to `_Plugin__getattr`), an attribute the
configuration store does not define, so that branch raises too. -/
def getGlobalOption (st : Store) (name : String) : Except PyErr String :=
  if hasAttr st name then Except.error PyErr.keyError
  else Except.error PyErr.attributeError

/-- Key built by `getOption` at `plugin.py` line 73:
`"%s.%s" % (self.prefix().lower(), name.lower())`. -/
def optionKey (p : Plugin) (name : String) : String :=
  pyLower p.pfx ++ "." ++ pyLower name

/-- Key built by `getState` and `setState` at `plugin.py` lines 91 and 113:
`"%s.state.%s" % (self.prefix().lower(), name.lower())`. -/
def stateKey (p : Plugin) (name : String) : String :=
  pyLower p.pfx ++ ".state." ++ pyLower name

/-- Embeds `Plugin.getOption` (`plugin.py` lines 64-78): raises KeyError when
the store lacks the key, otherwise returns the stored string. -/
def getOption (p : Plugin) (name : String) (st : Store) : Except PyErr String :=
  if hasAttr st (optionKey p name) then Except.ok (getAttrD st (optionKey p name))
  else Except.error PyErr.keyError

/-- Embeds `Plugin.getState` (`plugin.py` lines 80-96): returns the empty
string when the store lacks the key, otherwise the stored string. -/
def getState (p : Plugin) (name : String) (st : Store) : String :=
  if hasAttr st (stateKey p name) then getAttrD st (stateKey p name) else ""

/-- Validation prelude of `Plugin.setState` (`plugin.py` lines 107-111): the
string check on the value, then the dot/space check on the name, each calling
`self.error` when violated; the sequencing records that the write is reached
only if neither error call aborted the method. -/
def checkState (p : Plugin) (name : String) (value : PyVal) : Except PyErr Unit :=
  (if isStr value then Except.ok ()
   else pluginError p "values for a plugin state variable must be strings") >>= fun _ =>
  (if pyContains name '.' || pyContains name ' ' then
    pluginError p "plugin state variable names must not contain dots or spaces"
   else Except.ok ())

/-- Embeds `Plugin.setState` (`plugin.py` lines 98-114): after the checks,
writes the value under the state key; the returned pair is the outcome of the
call together with the configuration store after the call. -/
def setState (p : Plugin) (name : String) (value : PyVal) (st : Store) :
    Except PyErr Unit × Store :=
  match checkState p name value with
  | Except.error e => (Except.error e, st)
  | Except.ok _ => (Except.ok (), setAttr st (stateKey p name) (asStr value))

/-- Message emitted at `plugin.py` line 127: `"unknown node '%s'" % arg`,
through `util.output` with no prefix keyword. -/
def unknownNodeMsg (a : String) : OutputEvent :=
  ⟨"unknown node " ++ String.mk [Char.ofNat 39] ++ a ++ String.mk [Char.ofNat 39], none⟩

/-- Loop body of `Plugin.getNodes` (`plugin.py` lines 122-131): resolves each
word through the node directory, emitting one warning per unknown name and
collecting the known handles in order. The directory lookup models
`config.Config.nodes(arg, True)` from the spec (§6): it resolves a node name
to a handle or reports it unknown. -/
def getNodesList (env : String → Option Node) : List String → List Node × List OutputEvent
  | [] => ([], [])
  | a :: rest =>
    match env a with
    | none =>
      let r := getNodesList env rest
      (r.1, unknownNodeMsg a :: r.2)
    | some h =>
      let r := getNodesList env rest
      (h :: r.1, r.2)

/-- Embeds `Plugin.getNodes` (`plugin.py` lines 116-131): splits the argument
as `names.split()` and runs the resolution loop. -/
def getNodes (env : String → Option Node) (names : String) :
    List Node × List OutputEvent :=
  getNodesList env (pySplit names)

/-- Embeds `Plugin.executeParallel` (`plugin.py` lines 166-174). The body is
the single statement `control.executeCmdsParallel(cmds)`: the name `control`
is bound nowhere in the module (imports at lines 5-8 are `pluginreg`,
`config`, `util`, `doc`), so evaluating the callee raises NameError; the
method also has no return statement, so even with the import in place it
would return None rather than the documented result list. -/
def executeParallel (_cmds : List (Node × String)) :
    Except PyErr (List (Node × Int × String)) :=
  Except.error PyErr.nameError

/-- Per-option validation inside the `_registerOptions` loop (`plugin.py`
lines 906-914): empty-name check, dot/space check, string-default check, in
source order, each calling `self.error` when violated. -/
def checkOpt (p : Plugin) (name : String) (dflt : PyVal) : Except PyErr Unit :=
  (if name = "" then pluginError p "plugin option names must not be empty"
   else Except.ok ()) >>= fun _ =>
  (if pyContains name '.' || pyContains name ' ' then
    pluginError p "plugin option names must not contain dots or spaces"
   else Except.ok ()) >>= fun _ =>
  (if isStr dflt then Except.ok ()
   else pluginError p "plugin option default must be a string")

/-- Loop of `_registerOptions` (`plugin.py` lines 906-916): validates each
declared option and, when its checks pass, immediately registers it under
`"%s.%s" % (self.prefix().lower(), name)` — note the option name itself is
NOT lower-cased at line 916. An aborted iteration keeps the writes performed
by the previous iterations. -/
def registerLoop (p : Plugin) (pfxL : String) :
    List OptDecl → Store → Except PyErr Unit × Store
  | [], st => (Except.ok (), st)
  | (name, _ty, dflt, _descr) :: rest, st =>
    match checkOpt p name dflt with
    | Except.error e => (Except.error e, st)
    | Except.ok _ => registerLoop p pfxL rest (setAttr st (pfxL ++ "." ++ name) (asStr dflt))

/-- Prefix validation of `_registerOptions` (`plugin.py` lines 900-904):
empty-prefix check then dot/space check, each calling `self.error`. -/
def checkPfx (p : Plugin) : Except PyErr Unit :=
  (if p.pfx = "" then pluginError p "plugin prefix must not be empty"
   else Except.ok ()) >>= fun _ =>
  (if pyContains p.pfx '.' || pyContains p.pfx ' ' then
    pluginError p "plugin prefix must not contain dots or spaces"
   else Except.ok ())

/-- Embeds `Plugin._registerOptions` (`plugin.py` lines 899-916): prefix
checks, then the per-option loop; the returned pair is the outcome together
with the configuration store after the call. -/
def registerOptions (p : Plugin) (st : Store) : Except PyErr Unit × Store :=
  match checkPfx p with
  | Except.error e => (Except.error e, st)
  | Except.ok _ => registerLoop p (pyLower p.pfx) p.options st

/-- Well-formedness of a prefix or option name as `_registerOptions` checks
it: non-empty and free of dots and spaces. -/
def wfName (s : String) : Bool :=
  !(s == "") && !(pyContains s '.') && !(pyContains s ' ')

/-- Well-formedness of a declared option: well-formed name and string-typed
default. -/
def wfOpt (o : OptDecl) : Bool := wfName o.1 && isStr o.2.2.1

/-- Modelled from the spec: the effective node set of a node-taking command
(spec §4.1 dispatch helper contract) — the intersection of the results of
every registered pre hook, each hook receiving the full candidate list,
computed as a fold starting from the candidates (spec §9). -/
def effectiveNodes (cands : List Node) (pres : List (List Node → List Node)) : List Node :=
  pres.foldl (fun acc f => acc.filter (fun n => decide (n ∈ f cands))) cands

/-- Modelled from the spec: dispatch of one node-taking command (spec §4.1) —
the command runs exactly on the effective node set, producing one
`(node, success)` outcome per executed node, and every registered post hook
receives that same outcome list. -/
def dispatchNodeCommand (cands : List Node) (pres : List (List Node → List Node))
    (exec : Node → Bool) : List (Node × Bool) × List (List (Node × Bool)) :=
  let results := (effectiveNodes cands pres).map (fun n => (n, exec n))
  (results, List.replicate pres.length results)

/-- Plugin with prefix `test` and no options, for concrete evaluations. -/
def pluginTest : Plugin := ⟨"test", []⟩

/-- Plugin declaring the mixed-case option `Path`, as in the `options()`
docstring example (`plugin.py` lines 218-222). -/
def pluginPath : Plugin := ⟨"test", [("Path", "string", PyVal.str "/foo/bar", "a path")]⟩

/-- Plugin whose well-formed option `good` precedes the malformed option
`bad name`. -/
def pluginMixed : Plugin :=
  ⟨"test", [("good", "string", PyVal.str "1", "d"), ("bad name", "string", PyVal.str "2", "d")]⟩

/-- Plugin with an empty prefix. -/
def pluginBadPfx : Plugin := ⟨"", [("good", "string", PyVal.str "1", "d")]⟩

/-- Concrete node handles for closed evaluations. -/
def nodeOne : Node := ⟨"n1"⟩

/-- Second concrete node handle. -/
def nodeTwo : Node := ⟨"n2"⟩

/-- Third concrete node handle. -/
def nodeThree : Node := ⟨"n3"⟩

/-- Candidate node list for the dispatch example of spec §8 property 4. -/
def candsEx : List Node := [nodeOne, nodeTwo, nodeThree]

/-- Pre hooks of the dispatch example: plugin A keeps nodes one and two,
plugin B keeps nodes two and three. -/
def presEx : List (List Node → List Node) :=
  [fun _ => [nodeOne, nodeTwo], fun _ => [nodeTwo, nodeThree]]

end BroControl
namespace BroControl

theorem toNat_ofNatAux (n : Nat) (h : n.isValidChar) : (Char.ofNatAux n h).toNat = n := by
  simp [Char.ofNatAux, Char.toNat, UInt32.toNat, UInt32.ofNatCore]

theorem pyLowerChar_toNat_of_upper (c : Char) (h : 65 ≤ c.toNat ∧ c.toNat ≤ 90) :
    (pyLowerChar c).toNat = c.toNat + 32 := by
  have hv : (c.toNat + 32).isValidChar := by
    left
    omega
  simp only [pyLowerChar, Char.toLower]
  rw [if_pos ?_]
  · simp [Char.ofNat, hv, toNat_ofNatAux]
  · exact ⟨h.1, h.2⟩

theorem pyLowerChar_of_not_upper (c : Char) (h : ¬(65 ≤ c.toNat ∧ c.toNat ≤ 90)) :
    pyLowerChar c = c := by
  simp only [pyLowerChar, Char.toLower]
  rw [if_neg]
  omega

theorem pyLowerChar_idem (c : Char) : pyLowerChar (pyLowerChar c) = pyLowerChar c := by
  by_cases h : 65 ≤ c.toNat ∧ c.toNat ≤ 90
  · have h1 := pyLowerChar_toNat_of_upper c h
    exact pyLowerChar_of_not_upper _ (by omega)
  · rw [pyLowerChar_of_not_upper c h]
    exact pyLowerChar_of_not_upper c h

theorem pyLowerChar_eq_low_iff (c e : Char) (he : e.toNat < 65) :
    pyLowerChar c = e ↔ c = e := by
  by_cases h : 65 ≤ c.toNat ∧ c.toNat ≤ 90
  · have h1 := pyLowerChar_toNat_of_upper c h
    constructor
    · intro hh
      rw [hh] at h1
      omega
    · intro hh
      rw [hh] at h
      omega
  · rw [pyLowerChar_of_not_upper c h]

theorem pyLower_idem (s : String) : pyLower (pyLower s) = pyLower s := by
  simp only [pyLower, List.map_map]
  congr 1
  exact List.map_congr_left (fun c _ => pyLowerChar_idem c)

theorem pyContains_pyLower (s : String) (e : Char) (he : e.toNat < 65) :
    pyContains (pyLower s) e = pyContains s e := by
  simp only [pyContains, pyLower]
  induction s.data with
  | nil => rfl
  | cons c cs ih =>
    simp only [List.map_cons, List.contains_cons, ih]
    congr 1
    rw [Bool.eq_iff_iff, beq_iff_eq, beq_iff_eq]
    exact eq_comm.trans ((pyLowerChar_eq_low_iff c e he).trans eq_comm)

theorem hasAttr_setAttr_self (st : Store) (k v : String) :
    hasAttr (setAttr st k v) k = true := by
  simp [hasAttr, setAttr]

theorem getAttrD_setAttr_self (st : Store) (k v : String) :
    getAttrD (setAttr st k v) k = v := by
  simp [getAttrD, setAttr, List.find?]

end BroControl
namespace BroControl

theorem checkState_ok (p : Plugin) (name : String) (value : PyVal)
    (h1 : isStr value = true) (h2 : pyContains name '.' = false)
    (h3 : pyContains name ' ' = false) :
    checkState p name value = Except.ok () := by
  simp [checkState, h1, h2, h3, Bind.bind, Except.bind]

theorem checkState_err (p : Plugin) (name : String) (value : PyVal)
    (h : isStr value = false ∨ pyContains name '.' = true ∨ pyContains name ' ' = true) :
    checkState p name value = Except.error PyErr.nameError := by
  rcases h with h | h | h
  · simp [checkState, h, pluginError, Bind.bind, Except.bind]
  · cases hv : isStr value <;> simp [checkState, hv, h, pluginError, Bind.bind, Except.bind]
  · cases hv : isStr value <;> simp [checkState, hv, h, pluginError, Bind.bind, Except.bind]

theorem wfName_iff (s : String) :
    wfName s = true ↔ (s ≠ "" ∧ pyContains s '.' = false ∧ pyContains s ' ' = false) := by
  simp [wfName, and_assoc]

theorem wfOpt_iff (o : OptDecl) :
    wfOpt o = true ↔ (o.1 ≠ "" ∧ pyContains o.1 '.' = false ∧ pyContains o.1 ' ' = false ∧
      isStr o.2.2.1 = true) := by
  simp [wfOpt, wfName_iff, and_assoc]

theorem checkOpt_ok (p : Plugin) (o : OptDecl) (h : wfOpt o = true) :
    checkOpt p o.1 o.2.2.1 = Except.ok () := by
  obtain ⟨h1, h2, h3, h4⟩ := (wfOpt_iff o).mp h
  simp [checkOpt, h1, h2, h3, h4, Bind.bind, Except.bind]

theorem checkOpt_err (p : Plugin) (o : OptDecl) (h : wfOpt o = false) :
    checkOpt p o.1 o.2.2.1 = Except.error PyErr.nameError := by
  by_cases h1 : o.1 = ""
  · simp [checkOpt, h1, pluginError, Bind.bind, Except.bind]
  · cases h2 : pyContains o.1 '.' with
    | true => simp [checkOpt, h1, h2, pluginError, Bind.bind, Except.bind]
    | false =>
      cases h3 : pyContains o.1 ' ' with
      | true => simp [checkOpt, h1, h2, h3, pluginError, Bind.bind, Except.bind]
      | false =>
        have h4 : isStr o.2.2.1 = false := by
          rcases Bool.eq_false_or_eq_true (isStr o.2.2.1) with h4 | h4
          · exact absurd ((wfOpt_iff o).mpr ⟨h1, h2, h3, h4⟩) (by simp [h])
          · exact h4
        simp [checkOpt, h1, h2, h3, h4, pluginError, Bind.bind, Except.bind]

theorem checkPfx_ok (p : Plugin) (h : wfName p.pfx = true) :
    checkPfx p = Except.ok () := by
  obtain ⟨h1, h2, h3⟩ := (wfName_iff p.pfx).mp h
  simp [checkPfx, h1, h2, h3, Bind.bind, Except.bind]

theorem checkPfx_err (p : Plugin) (h : wfName p.pfx = false) :
    checkPfx p = Except.error PyErr.nameError := by
  by_cases h1 : p.pfx = ""
  · simp [checkPfx, h1, pluginError, Bind.bind, Except.bind]
  · cases h2 : pyContains p.pfx '.' with
    | true => simp [checkPfx, h1, h2, pluginError, Bind.bind, Except.bind]
    | false =>
      cases h3 : pyContains p.pfx ' ' with
      | true => simp [checkPfx, h1, h2, h3, pluginError, Bind.bind, Except.bind]
      | false => exact absurd ((wfName_iff p.pfx).mpr ⟨h1, h2, h3⟩) (by simp [h])

theorem registerLoop_append (p : Plugin) (pfxL : String) (good l : List OptDecl)
    (st : Store) (h : ∀ o ∈ good, wfOpt o = true) :
    registerLoop p pfxL (good ++ l) st =
      registerLoop p pfxL l (registerLoop p pfxL good st).2 := by
  induction good generalizing st with
  | nil => simp [registerLoop]
  | cons o rest ih =>
    obtain ⟨name, ty, dflt, descr⟩ := o
    have ho := h _ (List.mem_cons_self _ _)
    have hrest : ∀ o ∈ rest, wfOpt o = true := fun o hm => h o (List.mem_cons_of_mem _ hm)
    simp only [List.cons_append, registerLoop, checkOpt_ok p _ ho]
    exact ih _ hrest

theorem registerLoop_stuck (p : Plugin) (pfxL : String) (bad : OptDecl)
    (rest : List OptDecl) (st : Store) (h : wfOpt bad = false) :
    registerLoop p pfxL (bad :: rest) st = (Except.error PyErr.nameError, st) := by
  obtain ⟨name, ty, dflt, descr⟩ := bad
  simp only [registerLoop, checkOpt_err p _ h]

end BroControl
namespace BroControl

theorem getNodesList_spec (env : String → Option Node) (l : List String) :
    (getNodesList env l).1 = l.filterMap env ∧
    (getNodesList env l).2 =
      (l.filter (fun a => (env a).isNone)).map unknownNodeMsg := by
  induction l with
  | nil => exact ⟨rfl, rfl⟩
  | cons a rest ih =>
    cases ha : env a <;>
      simp [getNodesList, ha, List.filterMap_cons, List.filter_cons, ih.1, ih.2]

theorem mem_foldl_filter (cands : List Node) (pres : List (List Node → List Node))
    (acc : List Node) (n : Node) :
    n ∈ pres.foldl (fun acc f => acc.filter (fun m => decide (m ∈ f cands))) acc ↔
      n ∈ acc ∧ ∀ f ∈ pres, n ∈ f cands := by
  induction pres generalizing acc with
  | nil => simp
  | cons f rest ih =>
    simp only [List.foldl_cons, ih, List.mem_filter, decide_eq_true_eq, List.mem_cons]
    constructor
    · rintro ⟨⟨hn, hf⟩, hrest⟩
      refine ⟨hn, fun g hg => ?_⟩
      rcases hg with hg | hg
      · exact hg ▸ hf
      · exact hrest g hg
    · rintro ⟨hn, hall⟩
      exact ⟨⟨hn, hall f (Or.inl rfl)⟩, fun g hg => hall g (Or.inr hg)⟩

end BroControl
namespace BroControl

/-- C1: the round-trip of a declared option through `getOption` breaks for
mixed-case option names: `_registerOptions` stores the default of `Path`
under `test.Path` (option name not lower-cased at registration), while
`getOption "Path"` looks up the fully lower-cased key `test.path` and
therefore raises KeyError instead of returning the declared default. -/
theorem option_roundtrip_case_mismatch :
    registerOptions pluginPath [] = (Except.ok (), [("test.Path", "/foo/bar")]) ∧
    getOption pluginPath "Path" [("test.Path", "/foo/bar")] = Except.error PyErr.keyError ∧
    optionKey pluginPath "Path" = "test.path" :=
  ⟨rfl, rfl, rfl⟩

/-- C2: `getGlobalOption` has its existence check inverted: on a store that
KNOWS the option `foo`, the call raises KeyError instead of returning the
stored value `bar`; it never returns a value in either branch. -/
theorem getGlobalOption_inverted :
    hasAttr [("foo", "bar")] "foo" = true ∧
    getGlobalOption [("foo", "bar")] "foo" = Except.error PyErr.keyError :=
  ⟨rfl, rfl⟩

/-- C3: `setState` on a non-string value or a name containing a dot or a
space fails (the error-reporting path raises) and leaves the configuration
store unchanged; for a string value and a well-formed name, the write to
the state key happens. -/
theorem setState_validation (p : Plugin) (name : String) (value : PyVal) (st : Store) :
    ((isStr value = false ∨ pyContains name '.' = true ∨ pyContains name ' ' = true) →
      (setState p name value st).1 = Except.error PyErr.nameError ∧
      (setState p name value st).2 = st) ∧
    (isStr value = true → pyContains name '.' = false → pyContains name ' ' = false →
      (setState p name value st).1 = Except.ok () ∧
      (setState p name value st).2 = setAttr st (stateKey p name) (asStr value)) := by
  constructor
  · intro h
    simp [setState, checkState_err p name value h]
  · intro h1 h2 h3
    simp [setState, checkState_ok p name value h1 h2 h3]

/-- Witness for C3: a name with a space makes the call fail with the store
unchanged, and a well-formed write goes through. -/
theorem setState_validation_witness :
    (setState pluginTest "bad name" (PyVal.str "v") []).1 = Except.error PyErr.nameError ∧
    (setState pluginTest "bad name" (PyVal.str "v") []).2 = [] ∧
    (setState pluginTest "k" (PyVal.str "v") []).1 = Except.ok () ∧
    (setState pluginTest "k" (PyVal.str "v") []).2 =
      setAttr [] (stateKey pluginTest "k") (asStr (PyVal.str "v")) := by
  obtain ⟨ha, hb⟩ :=
    (setState_validation pluginTest "bad name" (PyVal.str "v") []).1
      (Or.inr (Or.inr (by decide)))
  obtain ⟨hc, hd⟩ :=
    (setState_validation pluginTest "k" (PyVal.str "v") []).2 rfl (by decide) (by decide)
  exact ⟨ha, hb, hc, hd⟩

/-- C4: reading a state variable that has never been set returns the empty
string rather than an error, and after `setState` with a string value the
same name reads back exactly that value. -/
theorem state_roundtrip (p : Plugin) (name v : String) (st : Store)
    (h2 : pyContains name '.' = false) (h3 : pyContains name ' ' = false) :
    (hasAttr st (stateKey p name) = false → getState p name st = "") ∧
    getState p name (setState p name (PyVal.str v) st).2 = v := by
  constructor
  · intro h
    simp [getState, h]
  · have hok := checkState_ok p name (PyVal.str v) rfl h2 h3
    simp [setState, hok, getState, hasAttr_setAttr_self, getAttrD_setAttr_self, asStr]

/-- Witness for C4: on the empty store, `getState` of a never-set name is
empty, and a set-then-get round-trip returns the written value. -/
theorem state_roundtrip_witness :
    getState pluginTest "k" [] = "" ∧
    getState pluginTest "k" (setState pluginTest "k" (PyVal.str "v") []).2 = "v" := by
  obtain ⟨ha, hb⟩ := state_roundtrip pluginTest "k" "v" [] (by decide) (by decide)
  exact ⟨ha (by decide), hb⟩

/-- C5 counterexample: for a plugin whose well-formed option `good` precedes
the malformed option name `bad name`, `_registerOptions` does report an
error, but the configuration store is NOT left without entries: the
preceding option has already been registered, refuting the claim that no
entries at all are registered. -/
theorem registerOptions_partial_write :
    (registerOptions pluginMixed []).1 = Except.error PyErr.nameError ∧
    (registerOptions pluginMixed []).2 = [("test.good", "1")] ∧
    [("test.good", "1")] ≠ ([] : Store) :=
  ⟨rfl, rfl, by decide⟩

/-- C5 amended: an empty or malformed prefix makes `_registerOptions` fail
with no entry registered; a malformed option entry makes it fail at that
entry via the error path (which raises), with every well-formed option
earlier in the list already registered in the store. -/
theorem registerOptions_amended :
    (∀ (p : Plugin) (st : Store), wfName p.pfx = false →
      registerOptions p st = (Except.error PyErr.nameError, st)) ∧
    (∀ (p : Plugin) (st : Store) (good : List OptDecl) (bad : OptDecl) (rest : List OptDecl),
      wfName p.pfx = true → p.options = good ++ bad :: rest →
      (∀ o ∈ good, wfOpt o = true) → wfOpt bad = false →
      registerOptions p st =
        (Except.error PyErr.nameError, (registerLoop p (pyLower p.pfx) good st).2)) := by
  constructor
  · intro p st h
    simp [registerOptions, checkPfx_err p h]
  · intro p st good bad rest hpfx hopts hgood hbad
    simp [registerOptions, checkPfx_ok p hpfx, hopts,
      registerLoop_append p _ good (bad :: rest) st hgood,
      registerLoop_stuck p _ bad rest _ hbad]

/-- Witness for C5: the empty-prefix plugin registers nothing, and the
mixed plugin fails having registered exactly its first, well-formed
option. -/
theorem registerOptions_amended_witness :
    registerOptions pluginBadPfx [] = (Except.error PyErr.nameError, []) ∧
    registerOptions pluginMixed [] = (Except.error PyErr.nameError, [("test.good", "1")]) := by
  refine ⟨registerOptions_amended.1 pluginBadPfx [] (by decide), ?_⟩
  have h := registerOptions_amended.2 pluginMixed []
    [("good", "string", PyVal.str "1", "d")] ("bad name", "string", PyVal.str "2", "d") []
    (by decide) rfl (by decide) (by decide)
  exact h.trans (by rfl)

/-- C6: `executeParallel` never returns the documented per-pair result list:
evaluating it on a two-command batch raises NameError (the module never
binds the name `control`), and the method has no return statement. -/
theorem executeParallel_no_result :
    executeParallel [(nodeOne, "cmd1"), (nodeTwo, "cmd2")] = Except.error PyErr.nameError :=
  rfl

/-- C7: `getNodes` resolves exactly the known names, in input order
(`filterMap` over the split words), and emits exactly one unknown-node
warning per unknown word, in input order; the function is total, so no
exception is raised. -/
theorem getNodes_spec (env : String → Option Node) (names : String) :
    (getNodes env names).1 = (pySplit names).filterMap env ∧
    (getNodes env names).2 =
      ((pySplit names).filter (fun a => (env a).isNone)).map unknownNodeMsg :=
  getNodesList_spec env (pySplit names)

/-- C8: `message` and `debug` do emit their text tagged `plugin:<prefix>`,
but `error` does not complete normally: its body evaluates the unbound
global name `error` and raises NameError before producing any output. -/
theorem messaging_tagged_error_crashes :
    message pluginTest "disk full" = ⟨"disk full", some "plugin:test"⟩ ∧
    debug pluginTest "disk full" = ⟨1, "disk full", some "plugin:test"⟩ ∧
    pluginError pluginTest "disk full" = Except.error PyErr.nameError :=
  ⟨rfl, rfl, rfl⟩

/-- C9: for a node-taking command, the executed node set is exactly the
intersection of all registered pre-hook results (each hook receiving the
full candidate list), every post hook receives outcome pairs only for
executed nodes, one outcome list is delivered per registered plugin, and an
empty intersection executes the command on no node. -/
theorem dispatch_intersection (cands : List Node) (pres : List (List Node → List Node))
    (exec : Node → Bool) (hne : pres ≠ [])
    (hsub : ∀ f ∈ pres, ∀ n, n ∈ f cands → n ∈ cands) :
    (∀ n, n ∈ effectiveNodes cands pres ↔ ∀ f ∈ pres, n ∈ f cands) ∧
    (∀ outcome ∈ (dispatchNodeCommand cands pres exec).2,
      ∀ q ∈ outcome, q.1 ∈ effectiveNodes cands pres) ∧
    (dispatchNodeCommand cands pres exec).2.length = pres.length ∧
    (effectiveNodes cands pres = [] → (dispatchNodeCommand cands pres exec).1 = []) := by
  have hmem : ∀ n, n ∈ effectiveNodes cands pres ↔ n ∈ cands ∧ ∀ f ∈ pres, n ∈ f cands :=
    fun n => mem_foldl_filter cands pres cands n
  refine ⟨?_, ?_, ?_, ?_⟩
  · intro n
    rw [hmem n]
    constructor
    · exact fun h => h.2
    · intro h
      rcases pres with _ | ⟨f, rest⟩
      · exact absurd rfl hne
      · exact ⟨hsub f (List.mem_cons_self f rest) n (h f (List.mem_cons_self f rest)), h⟩
  · intro outcome hout q hq
    simp only [dispatchNodeCommand, List.mem_replicate] at hout
    rw [hout.2] at hq
    simp only [List.mem_map] at hq
    obtain ⟨n, hn, hqe⟩ := hq
    rw [← hqe]
    exact hn
  · simp [dispatchNodeCommand]
  · intro h
    simp [dispatchNodeCommand, h]

/-- Witness for C9: in the two-plugin example where plugin A keeps nodes one
and two and plugin B keeps nodes two and three, node two is effective, and
the effective set is exactly that intersection. -/
theorem dispatch_intersection_witness :
    (nodeTwo ∈ effectiveNodes candsEx presEx ↔ ∀ f ∈ presEx, nodeTwo ∈ f candsEx) ∧
    effectiveNodes candsEx presEx = [nodeTwo] := by
  have hne : presEx ≠ [] := by simp [presEx]
  have hsub : ∀ f ∈ presEx, ∀ n, n ∈ f candsEx → n ∈ candsEx := by
    intro f hf n hn
    simp only [presEx, List.mem_cons, List.not_mem_nil, or_false] at hf
    rcases hf with hf | hf <;> subst hf <;>
      simp only [candsEx, List.mem_cons] at hn ⊢ <;> tauto
  exact ⟨(dispatch_intersection candsEx presEx (fun _ => true) hne hsub).1 nodeTwo, by decide⟩

/-- C10: every per-plugin accessor lower-cases the supplied name before
building its lookup key, so each behaves identically on a name and on its
lower-cased form: `getOption`, `getState` and `setState` are all invariant
under lower-casing their name argument. -/
theorem accessors_lowercase_insensitive (p : Plugin) (name : String) (value : PyVal)
    (st : Store) :
    getOption p name st = getOption p (pyLower name) st ∧
    getState p name st = getState p (pyLower name) st ∧
    setState p name value st = setState p (pyLower name) value st := by
  have hkey : pyLower (pyLower name) = pyLower name := pyLower_idem name
  have hdot : pyContains (pyLower name) '.' = pyContains name '.' :=
    pyContains_pyLower name '.' (by decide)
  have hsp : pyContains (pyLower name) ' ' = pyContains name ' ' :=
    pyContains_pyLower name ' ' (by decide)
  refine ⟨?_, ?_, ?_⟩
  · simp [getOption, optionKey, hkey]
  · simp [getState, stateKey, hkey]
  · simp [setState, checkState, stateKey, hkey, hdot, hsp]

end BroControl
